import Mathlib

/-!
Verification development for an aiohttp-based advertisement CRUD service.

The definitions below are a shallow embedding of the service's Python
sources: `auth.py` (token service and bearer extraction), `app.py`
(authentication middleware), `handlers.py` (login, require_auth and the
advertisement CRUD handlers) and `validators.py` (input validation and the
pagination guard).  Machine-independent data (JSON payload values, rows,
claims) is modelled with plain inductive types; the external PostgreSQL
store is modelled as an in-memory list of rows; the external PyJWT and
bcrypt libraries are modelled symbolically (a signature is represented by
the secret and algorithm that produced it, a bcrypt hash by a tagged copy
of the password), keeping exactly the equations the service relies on.
-/

namespace AdService

/-- A JSON value as seen by the validators: Python `None`, a string, or any
other value (number, list, object, bool) — the validators only distinguish
these three cases via `isinstance(value, str)` and `is None`. -/
inductive JsonVal where
  | null
  | str (s : String)
  | other
deriving DecidableEq, Repr

/-- A JSON object payload: an association list of key/value pairs
(Python `dict` keys are unique; none of the embedded code depends on
uniqueness, every access goes through the first matching key). -/
abbrev Payload := List (String × JsonVal)

/-! ### Python string primitives

The handful of `str` methods the sources use, implemented by structural
recursion over the character list (so they evaluate inside the kernel):
`strip()`, `lower()`, `split()` with no argument, and `split(sep)`. -/

/-- Python `str.strip()`: drop leading and trailing whitespace. -/
def pyStrip (s : String) : String :=
  ⟨((s.data.dropWhile Char.isWhitespace).reverse.dropWhile Char.isWhitespace).reverse⟩

/-- Python `str.lower()` (the sources only lower-case ASCII). -/
def pyLower (s : String) : String :=
  ⟨s.data.map Char.toLower⟩

/-- Accumulator loop for `splitWhitespace`. -/
def splitWSAux : List Char → List Char → List String
  | [], acc => if acc = [] then [] else [⟨acc.reverse⟩]
  | c :: cs, acc =>
    if c.isWhitespace then
      if acc = [] then splitWSAux cs []
      else ⟨acc.reverse⟩ :: splitWSAux cs []
    else splitWSAux cs (c :: acc)

/-- Python `str.split()` with no argument: split on runs of whitespace,
discarding empty pieces. -/
def splitWhitespace (s : String) : List String :=
  splitWSAux s.data []

/-- Accumulator loop for `pySplitOn`. -/
def splitChAux (sep : Char) : List Char → List Char → List String
  | [], acc => [⟨acc.reverse⟩]
  | c :: cs, acc =>
    if c = sep then ⟨acc.reverse⟩ :: splitChAux sep cs []
    else splitChAux sep cs (c :: acc)

/-- Python `str.split(sep)` for a one-character separator: keeps empty
pieces. -/
def pySplitOn (s : String) (sep : Char) : List String :=
  splitChAux sep s.data []

/-! ### Token service (`auth.py`)

PyJWT is modelled symbolically: a token records the header algorithm, the
claim set, and the secret and algorithm actually used to produce its
signature.  `jwt.decode(token, secret, algorithms=[algorithm])` accepts the
signature exactly when the header algorithm is in the allowed list and the
signature was produced with that same algorithm and the server's secret;
it then checks the `exp` claim (`ExpiredSignatureError` iff `exp <= now`,
zero leeway).  The `sub` claim is serialized by the source as
`str(user_id)` and parsed back with `int(...)` in the middleware; the
decimal round trip is the identity on integers, so the embedding keeps the
subject as an integer. -/

/-- The JWT claim set built by `create_jwt`: subject, issued-at, expiry. -/
structure JwtPayload where
  sub : Int
  iat : Int
  exp : Int
deriving DecidableEq, Repr

/-- A signed token: header algorithm, claims, and the secret/algorithm the
signature was actually produced with (symbolic model of an HMAC). -/
structure JwtToken where
  alg : String
  payload : JwtPayload
  sigSecret : String
  sigAlg : String
deriving DecidableEq, Repr

/-- Verification failures, as distinguished by `app.py`'s middleware:
`jwt.ExpiredSignatureError` vs every other `jwt.InvalidTokenError`. -/
inductive JwtError where
  | Expired
  | Invalid
deriving DecidableEq, Repr

/-- `auth.py: create_jwt` — builds the claims {sub, iat, exp = now +
expires_minutes * 60} and signs them with the given secret and algorithm.
The source reads the clock itself (`time.time()`); the embedding passes
`now` explicitly. -/
def create_jwt (user_id : Int) (secret : String) (algorithm : String)
    (expires_minutes : Int) (now : Int) : JwtToken :=
  { alg := algorithm
    payload := { sub := user_id, iat := now, exp := now + expires_minutes * 60 }
    sigSecret := secret
    sigAlg := algorithm }

/-- `auth.py: decode_jwt` — `jwt.decode(token, secret,
algorithms=[algorithm])`: the header algorithm must equal the single
allowed algorithm and the signature must verify under the server's secret
(otherwise `Invalid`, which also covers a declared "none" algorithm);
only then is expiry checked (`exp <= now` is `Expired`). -/
def decode_jwt (token : JwtToken) (secret : String) (algorithm : String)
    (now : Int) : Except JwtError JwtPayload :=
  if token.alg = algorithm ∧ token.sigAlg = token.alg ∧ token.sigSecret = secret then
    if token.payload.exp ≤ now then .error .Expired
    else .ok token.payload
  else .error .Invalid

/-- `auth.py: extract_bearer_token` — returns the token of an
`Authorization: Bearer <token>` header value: the header must be present
and truthy, split into exactly two whitespace-separated parts whose first
part lower-cases to "bearer". -/
def extract_bearer_token (auth_header : Option String) : Option String :=
  match auth_header with
  | none => none
  | some h =>
    if h = "" then none
    else
      match splitWhitespace h with
      | [scheme, tok] => if pyLower scheme = "bearer" then some tok else none
      | _ => none

/-! ### Authentication middleware (`app.py`) -/

/-- Outcome of the middleware for one request: either it short-circuits
with a 401 JSON error before the handler runs, or the handler is invoked
with the request's identity slot (`request["user_id"]`) holding either
nothing or the decoded subject. -/
inductive AuthResult where
  | unauthorized (error : String)
  | proceed (user_id : Option Int)
deriving DecidableEq, Repr

/-- `app.py: auth_middleware` — if a bearer token string is present it is
deserialized (`parseTok` models the wire decoding of the compact token
format; a malformed wire string is a `jwt.InvalidTokenError`) and verified;
`Expired`/`Invalid` answer 401 without invoking the handler, success binds
the decoded subject as the request identity, and an absent or malformed
header proceeds anonymously. -/
def auth_middleware (parseTok : String → Option JwtToken) (secret : String)
    (algorithm : String) (now : Int) (authHeader : Option String) : AuthResult :=
  match extract_bearer_token authHeader with
  | none => .proceed none
  | some t =>
    match parseTok t with
    | none => .unauthorized "Invalid token"
    | some tok =>
      match decode_jwt tok secret algorithm now with
      | .error .Expired => .unauthorized "Token expired"
      | .error .Invalid => .unauthorized "Invalid token"
      | .ok payload => .proceed (some payload.sub)

/-! ### `handlers.py: require_auth` -/

/-- Result of `require_auth`: the resolved user id, or the
`HTTPUnauthorized` (401) it raises. -/
inductive AuthCheck where
  | unauthorized
  | ok (user_id : Int)
deriving DecidableEq, Repr

/-- `handlers.py: require_auth` — reads `request["user_id"]` and raises
401 when it is falsy (`if not user_id:`), i.e. absent or the integer 0. -/
def require_auth (user_id : Option Int) : AuthCheck :=
  match user_id with
  | none => .unauthorized
  | some n => if n = 0 then .unauthorized else .ok n

/-! ### Pagination guard (`validators.py: parse_pagination`) -/

/-- A raw query-string parameter as the guard sees it: absent from the
query, present but not parseable as an integer (`int(...)` raises
`ValueError`), or parsed to an integer. -/
inductive RawParam where
  | absent
  | unparseable
  | int (n : Int)
deriving DecidableEq, Repr

/-- `validators.py: parse_pagination.to_int` — an absent or unparseable
value falls back to the default. -/
def to_int (value : RawParam) (default : Int) : Int :=
  match value with
  | .absent => default
  | .unparseable => default
  | .int n => n

/-- `validators.py: parse_pagination` — limit defaults to 50, is replaced
by 50 when below 1 and capped at 200; offset defaults to 0 and is floored
at 0. -/
def parse_pagination (qlimit qoffset : RawParam) : Int × Int :=
  let limit := to_int qlimit 50
  let offset := to_int qoffset 0
  let limit := if limit < 1 then 50 else limit
  let limit := if limit > 200 then 200 else limit
  let offset := if offset < 0 then 0 else offset
  (limit, offset)

/-! ### Input validation (`validators.py`) -/

/-- `validators.py: _not_empty` — true exactly for a string value whose
strip is non-empty. -/
def _not_empty (value : JsonVal) : Bool :=
  match value with
  | .str s => !(pyStrip s == "")
  | _ => false

/-- The allow-list of `validators.py: validate_update`. -/
def updAllowed : List String := ["title", "description", "owner"]

/-- The `title` branch of `validate_update`: absent or explicit null is a
no-op; a non-string or blank string is a "Field cannot be empty" error; a
stripped value longer than 200 is a length error; otherwise the stripped
value survives.  Returns (errors, surviving output) for this field. -/
def updTitle (data : Payload) : List (String × String) × List (String × String) :=
  match data.lookup "title" with
  | none => ([], [])
  | some .null => ([], [])
  | some .other => ([("title", "Field cannot be empty")], [])
  | some (.str v) =>
    if pyStrip v = "" then ([("title", "Field cannot be empty")], [])
    else if 200 < (pyStrip v).length then ([("title", "Max length is 200")], [])
    else ([], [("title", pyStrip v)])

/-- The `description` branch of `validate_update`: like `title` but with no
length cap. -/
def updDescription (data : Payload) : List (String × String) × List (String × String) :=
  match data.lookup "description" with
  | none => ([], [])
  | some .null => ([], [])
  | some .other => ([("description", "Field cannot be empty")], [])
  | some (.str v) =>
    if pyStrip v = "" then ([("description", "Field cannot be empty")], [])
    else ([], [("description", pyStrip v)])

/-- The `owner` branch of `validate_update`: like `title` with cap 100. -/
def updOwner (data : Payload) : List (String × String) × List (String × String) :=
  match data.lookup "owner" with
  | none => ([], [])
  | some .null => ([], [])
  | some .other => ([("owner", "Field cannot be empty")], [])
  | some (.str v) =>
    if pyStrip v = "" then ([("owner", "Field cannot be empty")], [])
    else if 100 < (pyStrip v).length then ([("owner", "Max length is 100")], [])
    else ([], [("owner", pyStrip v)])

/-- `validators.py: validate_update` — keep only allow-listed keys, fail
with "No fields to update" when none is present, validate each present
field (null is a no-op, blank is an error), raise the accumulated errors,
and fail with "No valid fields to update" when nothing survives. -/
def validate_update (payload : Payload) : Except (List (String × String)) (List (String × String)) :=
  let data := payload.filter (fun kv => decide (kv.1 ∈ updAllowed))
  if data.isEmpty then .error [("_", "No fields to update")]
  else
    let t := updTitle data
    let d := updDescription data
    let o := updOwner data
    let errors := t.1 ++ d.1 ++ o.1
    if errors.isEmpty then
      let out := t.2 ++ d.2 ++ o.2
      if out.isEmpty then .error [("_", "No valid fields to update")]
      else .ok out
    else .error errors

/-! ### Spec-modelled validators

`handlers.py` imports `validate_register`, `validate_login`,
`validate_create_ad` and `validate_update_ad` from the validators module,
but the validators source in the repository defines only the legacy
unauthenticated-variant `validate_create`/`validate_update` (which carry a
client-supplied `owner` field) and `parse_pagination`.  The four imported
validators are therefore modelled from the spec (§4.4). -/

/-- Modelled from the spec: the allow-list of `validate_update_ad`, the
authenticated partial-update validator missing from the sources — only
`title` and `description` are client-settable, never the owner. -/
def adUpdAllowed : List String := ["title", "description"]

/-- Modelled from the spec: `validate_update_ad`, the partial-update
validator for the authenticated listing update, missing from the sources
(only its import and call sites exist).  Only an allow-listed subset of
fields is considered, other keys are silently dropped; at least one
allowed field must be present ("No fields to update"); each present field
follows the create rules when not null, a blank explicit field is an
error; if nothing survives, "No valid fields to update". -/
def validate_update_ad (payload : Payload) : Except (List (String × String)) (List (String × String)) :=
  let data := payload.filter (fun kv => decide (kv.1 ∈ adUpdAllowed))
  if data.isEmpty then .error [("_", "No fields to update")]
  else
    let t := updTitle data
    let d := updDescription data
    let errors := t.1 ++ d.1
    if errors.isEmpty then
      let out := t.2 ++ d.2
      if out.isEmpty then .error [("_", "No valid fields to update")]
      else .ok out
    else .error errors

/-- Modelled from the spec: the `title` rule of `validate_create_ad` —
required, non-blank, at most 200 characters after trimming. -/
def checkCreateTitle (v : Option JsonVal) : Except (String × String) String :=
  match v with
  | some (.str s) =>
    if pyStrip s = "" then .error ("title", "Field cannot be empty")
    else if 200 < (pyStrip s).length then .error ("title", "Max length is 200")
    else .ok (pyStrip s)
  | _ => .error ("title", "Field cannot be empty")

/-- Modelled from the spec: the `description` rule of `validate_create_ad`
— required, non-blank. -/
def checkCreateDescription (v : Option JsonVal) : Except (String × String) String :=
  match v with
  | some (.str s) =>
    if pyStrip s = "" then .error ("description", "Field cannot be empty")
    else .ok (pyStrip s)
  | _ => .error ("description", "Field cannot be empty")

/-- Modelled from the spec: `validate_create_ad`, the create validator for
the authenticated listing create, missing from the sources (only its use
sites exist).  It reads only `title` and `description` —
no owner field is accepted from the client — and accumulates both field
errors instead of failing on the first. -/
def validate_create_ad (payload : Payload) : Except (List (String × String)) (String × String) :=
  match checkCreateTitle (payload.lookup "title"),
        checkCreateDescription (payload.lookup "description") with
  | .ok t, .ok d => .ok (t, d)
  | .error e, .ok _ => .error [e]
  | .ok _, .error e => .error [e]
  | .error e1, .error e2 => .error [e1, e2]

/-- Modelled from the spec: the simple `local@domain.tld` email shape of
the registration validator — at least one `@`, no whitespace anywhere, and
a `.` somewhere after the first `@`. -/
def valid_email_shape (s : String) : Bool :=
  let parts := pySplitOn s '@'
  decide (2 ≤ parts.length) && s.data.all (fun c => !c.isWhitespace)
    && parts.tail.any (fun p => p.data.contains '.')

/-- Modelled from the spec: the `email` rule of `validate_register` —
required, non-blank after trimming, matching the simple shape, normalized
by trimming and lower-casing. -/
def checkRegEmail (v : Option JsonVal) : Except (String × String) String :=
  match v with
  | some (.str s) =>
    if pyStrip s = "" then .error ("email", "Field cannot be empty")
    else if valid_email_shape (pyStrip s) then .ok (pyLower (pyStrip s))
    else .error ("email", "Invalid email")
  | _ => .error ("email", "Field cannot be empty")

/-- Modelled from the spec: the `password` rule of `validate_register` —
required, trimmed length at least 6. -/
def checkRegPassword (v : Option JsonVal) : Except (String × String) String :=
  match v with
  | some (.str s) =>
    if (pyStrip s).length < 6 then .error ("password", "Password must be at least 6 characters")
    else .ok s
  | _ => .error ("password", "Password must be at least 6 characters")

/-- Validated registration data: normalized email and the password. -/
structure RegisterData where
  email : String
  password : String
deriving DecidableEq, Repr

/-- Modelled from the spec: `validate_register`, the registration
validator missing from the sources (only its import and call site exist).
Violations of the email and password rules accumulate into a
field-to-message mapping returned at once. -/
def validate_register (payload : Payload) : Except (List (String × String)) RegisterData :=
  match checkRegEmail (payload.lookup "email"),
        checkRegPassword (payload.lookup "password") with
  | .ok e, .ok p => .ok ⟨e, p⟩
  | .error e1, .ok _ => .error [e1]
  | .ok _, .error e2 => .error [e2]
  | .error e1, .error e2 => .error [e1, e2]

/-! ### Data model and handlers (`db.py`, `handlers.py`)

The PostgreSQL store is modelled as in-memory lists of rows; one SQL
`SELECT ... WHERE id = $1` is a `find?` on the list. -/

/-- A row of the `advertisements` table. -/
structure Advertisement where
  id : Int
  title : String
  description : String
  created_at : Int
  user_id : Int
deriving DecidableEq, Repr

/-- A row of the `users` table. -/
structure UserRec where
  id : Int
  email : String
  password_hash : String
deriving DecidableEq, Repr

/-- `SELECT ... FROM advertisements WHERE id = $1` — the first row with
the given id, if any. -/
def find_ad (db : List Advertisement) (ad_id : Int) : Option Advertisement :=
  db.find? (fun a => a.id == ad_id)

/-- The dynamic `UPDATE advertisements SET ...` built by
`update_advertisement`: set exactly the validated columns, leaving every
other column — in particular `user_id` — untouched. -/
def apply_update (ad : Advertisement) (data : List (String × String)) : Advertisement :=
  data.foldl (fun a kv =>
    if kv.1 = "title" then { a with title := kv.2 }
    else if kv.1 = "description" then { a with description := kv.2 }
    else a) ad

/-- Response of the update handler, with its HTTP status. -/
inductive UpdateResp where
  | badRequest (errors : List (String × String))
  | notFound
  | forbidden
  | updated (ad : Advertisement)
deriving DecidableEq, Repr

/-- HTTP status of an update response. -/
def UpdateResp.status : UpdateResp → Nat
  | .badRequest _ => 400
  | .notFound => 404
  | .forbidden => 403
  | .updated _ => 200

/-- Response of the delete handler, with its HTTP status. -/
inductive DeleteResp where
  | notFound
  | forbidden
  | deleted (id : Int)
deriving DecidableEq, Repr

/-- HTTP status of a delete response. -/
def DeleteResp.status : DeleteResp → Nat
  | .notFound => 404
  | .forbidden => 403
  | .deleted _ => 200

/-- Response of the create handler. -/
inductive CreateResp where
  | badRequest (errors : List (String × String))
  | created (ad : Advertisement)
deriving DecidableEq, Repr

/-- `handlers.py: create_advertisement` after `require_auth` — validate
the payload, then insert a row whose `user_id` is the caller's resolved
identity (taken from the token, not from the request body); `next_id` and
`now` model the SERIAL id and `CURRENT_TIMESTAMP` the store assigns. -/
def create_advertisement (db : List Advertisement) (next_id : Int) (user_id : Int)
    (payload : Payload) (now : Int) : CreateResp × List Advertisement :=
  match validate_create_ad payload with
  | .error e => (.badRequest e, db)
  | .ok td =>
    let ad : Advertisement :=
      { id := next_id, title := td.1, description := td.2
        created_at := now, user_id := user_id }
    (.created ad, db ++ [ad])

/-- `handlers.py: update_advertisement` after `require_auth` — validate
the payload, then fetch the target's owner row: a missing row is 404, an
owner different from the caller is 403, and only then is the UPDATE built
from the validated fields and applied. -/
def update_advertisement (db : List Advertisement) (user_id ad_id : Int)
    (payload : Payload) : UpdateResp × List Advertisement :=
  match validate_update_ad payload with
  | .error e => (.badRequest e, db)
  | .ok data =>
    match find_ad db ad_id with
    | none => (.notFound, db)
    | some ad =>
      if ad.user_id ≠ user_id then (.forbidden, db)
      else
        let ad2 := apply_update ad data
        (.updated ad2, db.map (fun a => if a.id = ad_id then ad2 else a))

/-- `handlers.py: delete_advertisement` after `require_auth` — fetch the
target's owner row: a missing row is 404, an owner different from the
caller is 403, and only then is the row deleted. -/
def delete_advertisement (db : List Advertisement) (user_id ad_id : Int) :
    DeleteResp × List Advertisement :=
  match find_ad db ad_id with
  | none => (.notFound, db)
  | some ad =>
    if ad.user_id ≠ user_id then (.forbidden, db)
    else (.deleted ad_id, db.filter (fun a => a.id != ad_id))

/-- Symbolic model of `bcrypt.hashpw`: the blob determines the password it
was derived from (the salt is abstracted away). -/
def hashpw (password : String) : String := "bcrypt$" ++ password

/-- Symbolic model of `bcrypt.checkpw`: a password matches a blob exactly
when the blob was derived from it. -/
def checkpw (password : String) (hash_blob : String) : Bool :=
  hash_blob == hashpw password

/-- Response of the login handler. -/
inductive LoginResp where
  | unauthorized (error : String)
  | ok (token : JwtToken)
deriving DecidableEq, Repr

/-- HTTP status of a login response. -/
def LoginResp.status : LoginResp → Nat
  | .unauthorized _ => 401
  | .ok _ => 200

/-- `handlers.py: login` after syntactic validation — look the user up by
email; an unknown email and a known email with a failing password check
both answer 401 with the same generic "Invalid credentials" body; on
success a token for the user's id is issued. -/
def login (users : List UserRec) (email password : String) (secret : String)
    (algorithm : String) (expires_minutes now : Int) : LoginResp :=
  match users.find? (fun u => u.email == email) with
  | none => .unauthorized "Invalid credentials"
  | some user =>
    if !(checkpw password user.password_hash) then .unauthorized "Invalid credentials"
    else .ok (create_jwt user.id secret algorithm expires_minutes now)

/-! ### Helper lemmas -/

/-- A successful association-list lookup yields a pair of the list. -/
theorem mem_of_lookup_eq_some {β : Type} {k : String} {b : β} :
    ∀ {l : List (String × β)}, l.lookup k = some b → (k, b) ∈ l := by
  intro l
  induction l with
  | nil => intro h; cases h
  | cons a tl ih =>
    intro h
    rw [List.lookup] at h
    cases hk : k == a.1 with
    | false =>
      rw [hk] at h
      exact List.mem_cons_of_mem _ (ih h)
    | true =>
      rw [hk] at h
      have hkey : k = a.1 := by simpa using hk
      have hb : a.2 = b := by
        cases h
        rfl
      rw [hkey, ← hb]
      exact List.mem_cons_self _ _

/-- Filtering on a key predicate that holds at `k` preserves lookups of
`k`. -/
theorem lookup_filter_key {β : Type} (f : String → Bool) (k : String) (hf : f k = true) :
    ∀ l : List (String × β), (l.filter (fun kv => f kv.1)).lookup k = l.lookup k := by
  intro l
  induction l with
  | nil => rfl
  | cons a tl ih =>
    by_cases hk : k = a.1
    · subst hk
      simp [List.filter_cons, hf, List.lookup]
    · have hbeq : (k == a.1) = false := by simpa using hk
      rw [List.filter_cons]
      by_cases hfa : f a.1 = true
      · simp only [hfa, if_true, List.lookup, hbeq, ih]
      · simp only [Bool.not_eq_true] at hfa
        simp only [hfa, Bool.false_eq_true, if_false, ih, List.lookup, hbeq]

/-- The dynamic SET clause never touches the `user_id` column. -/
theorem apply_update_keeps_user_id (data : List (String × String)) :
    ∀ ad : Advertisement, (apply_update ad data).user_id = ad.user_id := by
  induction data with
  | nil => intro ad; rfl
  | cons kv tl ih =>
    intro ad
    have hstep : apply_update ad (kv :: tl)
        = apply_update (if kv.1 = "title" then { ad with title := kv.2 }
            else if kv.1 = "description" then { ad with description := kv.2 }
            else ad) tl := rfl
    rw [hstep, ih]
    by_cases h1 : kv.1 = "title"
    · simp [h1]
    · by_cases h2 : kv.1 = "description" <;> simp [h1, h2]

/-! ### Claims -/

/-- Claim C3: a token issued at `t` with TTL `expires_minutes * 60`
verifies back to its subject at any time strictly before expiry (in
particular at `t + ttl - 1`), and fails as `Expired` at any time from
`t + ttl` on (in particular at `t + ttl + 1`). -/
theorem c3_token_lifetime (u t now : Int) (secret algorithm : String) (m : Int) :
    (now < t + m * 60 →
      decode_jwt (create_jwt u secret algorithm m t) secret algorithm now
        = .ok { sub := u, iat := t, exp := t + m * 60 }) ∧
    (t + m * 60 ≤ now →
      decode_jwt (create_jwt u secret algorithm m t) secret algorithm now
        = .error .Expired) := by
  constructor <;> intro h <;>
    simp only [decode_jwt, create_jwt, and_self, if_true, if_pos (And.intro rfl (And.intro rfl rfl))] <;>
    split <;> first | rfl | omega

/-- Witness for C3 at `u = 5`, `t = 100`, TTL 3600: verification succeeds
at `t + ttl - 1 = 3699` and is `Expired` at `t + ttl + 1 = 3701`. -/
theorem c3_token_lifetime_witness :
    decode_jwt (create_jwt 5 "s" "HS256" 60 100) "s" "HS256" 3699
      = .ok { sub := 5, iat := 100, exp := 100 + 60 * 60 } ∧
    decode_jwt (create_jwt 5 "s" "HS256" 60 100) "s" "HS256" 3701
      = .error .Expired :=
  ⟨(c3_token_lifetime 5 100 3699 "s" "HS256" 60).1 (by decide),
   (c3_token_lifetime 5 100 3701 "s" "HS256" 60).2 (by decide)⟩

/-- Claim C4: a token whose signature was produced with a different secret,
or whose header declares an algorithm different from the server's
configured one (including "none"), fails verification as `Invalid` and
never decodes to a claim set. -/
theorem c4_forged_token_invalid (tok : JwtToken) (secret algorithm : String) (now : Int)
    (h : tok.sigSecret ≠ secret ∨ tok.alg ≠ algorithm) :
    decode_jwt tok secret algorithm now = .error .Invalid ∧
    ∀ p, decode_jwt tok secret algorithm now ≠ .ok p := by
  have hcond : ¬(tok.alg = algorithm ∧ tok.sigAlg = tok.alg ∧ tok.sigSecret = secret) := by
    rintro ⟨h1, _, h3⟩
    rcases h with h | h <;> exact h (by simp [h1, h3])
  constructor
  · rw [decode_jwt, if_neg hcond]
  · intro p
    rw [decode_jwt, if_neg hcond]
    simp

/-- Witness for C4: a token declaring the "none" algorithm, and a token
signed with the wrong secret, are both rejected as `Invalid`. -/
theorem c4_forged_token_invalid_witness :
    decode_jwt ⟨"none", ⟨5, 0, 99999⟩, "s", "none"⟩ "s" "HS256" 200 = .error .Invalid ∧
    decode_jwt (create_jwt 5 "other" "HS256" 60 100) "s" "HS256" 200 = .error .Invalid :=
  ⟨(c4_forged_token_invalid _ "s" "HS256" 200 (Or.inr (by decide))).1,
   (c4_forged_token_invalid _ "s" "HS256" 200 (Or.inl (by decide))).1⟩

/-- Claim C7: a failed login — whether the email is unknown or the
password fails verification — answers 401 with the same generic "Invalid
credentials" body, so the response does not distinguish the two causes. -/
theorem c7_login_failure_indistinguishable (users1 users2 : List UserRec)
    (email pw secret algorithm : String) (m now : Int) (u : UserRec)
    (h1 : users1.find? (fun x => x.email == email) = none)
    (h2 : users2.find? (fun x => x.email == email) = some u)
    (h3 : checkpw pw u.password_hash = false) :
    login users1 email pw secret algorithm m now = .unauthorized "Invalid credentials" ∧
    login users2 email pw secret algorithm m now = .unauthorized "Invalid credentials" ∧
    login users1 email pw secret algorithm m now
      = login users2 email pw secret algorithm m now ∧
    (login users1 email pw secret algorithm m now).status = 401 := by
  have e1 : login users1 email pw secret algorithm m now
      = .unauthorized "Invalid credentials" := by
    simp only [login, h1]
  have e2 : login users2 email pw secret algorithm m now
      = .unauthorized "Invalid credentials" := by
    simp only [login, h2, h3, Bool.not_false, if_true]
  exact ⟨e1, e2, by rw [e1, e2], by rw [e1]; rfl⟩

/-- Witness for C7: the unknown-email run and the wrong-password run both
answer 401 "Invalid credentials". -/
theorem c7_login_failure_indistinguishable_witness :
    login [] "a@b.c" "wrong" "s" "HS256" 60 0 = .unauthorized "Invalid credentials" ∧
    login [⟨1, "a@b.c", hashpw "right"⟩] "a@b.c" "wrong" "s" "HS256" 60 0
      = .unauthorized "Invalid credentials" := by
  have h := c7_login_failure_indistinguishable [] [⟨1, "a@b.c", hashpw "right"⟩]
    "a@b.c" "wrong" "s" "HS256" 60 0 ⟨1, "a@b.c", hashpw "right"⟩
    rfl (by decide) (by decide)
  exact ⟨h.1, h.2.1⟩

/-- Claim C8: the pagination clamp is idempotent, its output limit is
always in [1, 200] and its output offset is non-negative; absence and
parse failures fall back to limit 50 and offset 0, a limit below 1 becomes
50, a limit above 200 becomes 200, and a negative offset becomes 0. -/
theorem c8_pagination_clamp :
    (∀ l o : RawParam,
      parse_pagination (.int (parse_pagination l o).1) (.int (parse_pagination l o).2)
        = parse_pagination l o) ∧
    (∀ l o : RawParam,
      1 ≤ (parse_pagination l o).1 ∧ (parse_pagination l o).1 ≤ 200 ∧
        0 ≤ (parse_pagination l o).2) ∧
    parse_pagination .absent .absent = (50, 0) ∧
    parse_pagination .unparseable .unparseable = (50, 0) ∧
    (∀ (n : Int) (o : RawParam), n < 1 → (parse_pagination (.int n) o).1 = 50) ∧
    (∀ (n : Int) (o : RawParam), 200 < n → (parse_pagination (.int n) o).1 = 200) ∧
    (∀ (l : RawParam) (m : Int), m < 0 → (parse_pagination l (.int m)).2 = 0) := by
  have key : ∀ a b : Int, parse_pagination (.int a) (.int b)
      = (if a < 1 then 50 else if a > 200 then 200 else a, if b < 0 then 0 else b) := by
    intro a b
    simp only [parse_pagination, to_int]
    by_cases ha : a < 1
    · rw [if_pos ha, if_pos ha, if_neg (by omega)]
    · rw [if_neg ha, if_neg ha]
  have hbounds : ∀ l o : RawParam,
      1 ≤ (parse_pagination l o).1 ∧ (parse_pagination l o).1 ≤ 200 ∧
        0 ≤ (parse_pagination l o).2 := by
    intro l o
    cases l <;> cases o <;> simp only [parse_pagination, to_int] <;>
      refine ⟨?_, ?_, ?_⟩ <;> split_ifs <;> omega
  refine ⟨?_, hbounds, rfl, rfl, ?_, ?_, ?_⟩
  · intro l o
    obtain ⟨hb1, hb2, hb3⟩ := hbounds l o
    rw [key]
    rw [if_neg (by omega), if_neg (by omega), if_neg (by omega)]
  · intro n o hn
    cases o <;> simp only [parse_pagination, to_int] <;>
      rw [if_pos hn, if_neg (by omega)]
  · intro n o hn
    cases o <;> simp only [parse_pagination, to_int] <;>
      rw [show (if n < 1 then (50 : Int) else n) = n from if_neg (by omega),
        if_pos (by omega)]
  · intro l m hm
    cases l <;> simp only [parse_pagination, to_int] <;> rw [if_pos hm]

/-- Witness for C8: clamping (0, -5) yields (50, 0), clamping 500 yields
200, and re-clamping the clamped pair (200, 7) is the identity. -/
theorem c8_pagination_clamp_witness :
    (parse_pagination (.int 0) (.int (-5))).1 = 50 ∧
    (parse_pagination (.int 0) (.int (-5))).2 = 0 ∧
    (parse_pagination (.int 500) (.int 7)).1 = 200 ∧
    parse_pagination (.int (parse_pagination (.int 500) (.int 7)).1)
      (.int (parse_pagination (.int 500) (.int 7)).2)
      = parse_pagination (.int 500) (.int 7) :=
  ⟨c8_pagination_clamp.2.2.2.2.1 0 (.int (-5)) (by decide),
   c8_pagination_clamp.2.2.2.2.2.2 (.int 0) (-5) (by decide),
   c8_pagination_clamp.2.2.2.2.2.1 500 (.int 7) (by decide),
   c8_pagination_clamp.1 (.int 500) (.int 7)⟩

/-- Claim C10: `require_auth` returns the resolved user id exactly when
the identity slot holds a truthy value — a present, non-zero id — and a
resolved identity of 0 is rejected with 401 exactly like an absent one. -/
theorem c10_require_auth_truthiness :
    (∀ (o : Option Int) (n : Int), require_auth o = .ok n ↔ o = some n ∧ n ≠ 0) ∧
    require_auth (some 0) = .unauthorized ∧
    require_auth none = .unauthorized ∧
    require_auth (some 0) = require_auth none := by
  refine ⟨?_, rfl, rfl, rfl⟩
  intro o n
  cases o with
  | none => simp [require_auth]
  | some m =>
    by_cases hm : m = 0
    · subst hm
      simp [require_auth]
      rintro rfl
      simp
    · simp only [require_auth, if_neg hm]
      constructor
      · rintro h
        cases h
        exact ⟨rfl, hm⟩
      · rintro ⟨h, _⟩
        cases h
        rfl

/-- Witness for C10: a nonzero identity is returned, the identity 0 — as
carried by a validly signed token with subject 0 — is rejected like an
absent identity. -/
theorem c10_require_auth_truthiness_witness :
    require_auth (some 7) = .ok 7 ∧
    require_auth (some (decode_jwt (create_jwt 0 "s" "HS256" 60 100) "s" "HS256" 200
      |>.toOption.map JwtPayload.sub |>.getD 99)) = .unauthorized :=
  ⟨(c10_require_auth_truthiness.1 (some 7) 7).mpr ⟨rfl, by decide⟩,
   by
    have h : (decode_jwt (create_jwt 0 "s" "HS256" 60 100) "s" "HS256" 200
        |>.toOption.map JwtPayload.sub |>.getD 99) = 0 := by decide
    rw [h]
    exact c10_require_auth_truthiness.2.1⟩

/-- An empty header value splits into no parts. -/
theorem splitWhitespace_empty : splitWhitespace "" = [] := rfl

/-- A header that does not split into exactly two parts with a scheme
lower-casing to "bearer" yields no token. -/
theorem extract_none_of_malformed (h : String)
    (hm : ∀ s t, splitWhitespace h = [s, t] → pyLower s ≠ "bearer") :
    extract_bearer_token (some h) = none := by
  by_cases hne : h = ""
  · subst hne
    rfl
  · cases hsp : splitWhitespace h with
    | nil => simp [extract_bearer_token, hne, hsp]
    | cons a tl =>
      cases tl with
      | nil => simp [extract_bearer_token, hne, hsp]
      | cons b tl2 =>
        cases tl2 with
        | nil => simp [extract_bearer_token, hne, hsp, hm a b hsp]
        | cons c tl3 => simp [extract_bearer_token, hne, hsp]

/-- A header of exactly two whitespace-separated parts whose scheme
lower-cases to "bearer" yields its second part as the token. -/
theorem extract_some_of_two_parts (h s t : String) (hw : splitWhitespace h = [s, t])
    (hs : pyLower s = "bearer") : extract_bearer_token (some h) = some t := by
  have hne : h ≠ "" := by
    intro he
    rw [he, splitWhitespace_empty] at hw
    cases hw
  simp only [extract_bearer_token, if_neg hne, hw]
  rw [if_pos hs]

/-- Claim C5: an absent or malformed Authorization header leaves the
identity absent and proceeds to the handler without error; a well-formed
bearer token that fails verification answers 401 before any handler runs;
a verifying token binds its decoded subject as the request identity. -/
theorem c5_identity_resolution (parseTok : String → Option JwtToken)
    (secret algorithm : String) (now : Int) :
    auth_middleware parseTok secret algorithm now none = .proceed none ∧
    (∀ h : String, (∀ s t, splitWhitespace h = [s, t] → pyLower s ≠ "bearer") →
      auth_middleware parseTok secret algorithm now (some h) = .proceed none) ∧
    (∀ h s t : String, splitWhitespace h = [s, t] → pyLower s = "bearer" →
      extract_bearer_token (some h) = some t) ∧
    (∀ (hd : Option String) (t : String) (tok : JwtToken),
      extract_bearer_token hd = some t → parseTok t = some tok →
      (decode_jwt tok secret algorithm now = .error .Expired →
        auth_middleware parseTok secret algorithm now hd = .unauthorized "Token expired") ∧
      (decode_jwt tok secret algorithm now = .error .Invalid →
        auth_middleware parseTok secret algorithm now hd = .unauthorized "Invalid token") ∧
      (∀ p, decode_jwt tok secret algorithm now = .ok p →
        auth_middleware parseTok secret algorithm now hd = .proceed (some p.sub))) := by
  refine ⟨rfl, ?_, ?_, ?_⟩
  · intro h hm
    simp [auth_middleware, extract_none_of_malformed h hm]
  · intro h s t hw hs
    exact extract_some_of_two_parts h s t hw hs
  · intro hd t tok he hp
    refine ⟨?_, ?_, ?_⟩
    · intro hdec
      simp [auth_middleware, he, hp, hdec]
    · intro hdec
      simp [auth_middleware, he, hp, hdec]
    · intro p hdec
      simp [auth_middleware, he, hp, hdec]

/-- Witness for C5: a non-bearer header proceeds anonymously, an expired
bearer token is answered 401 before the handler, and a valid one binds
subject 5. -/
theorem c5_identity_resolution_witness :
    auth_middleware (fun s => if s = "good" then some (create_jwt 5 "s" "HS256" 60 100)
      else none) "s" "HS256" 200 (some "Basic abc") = .proceed none ∧
    auth_middleware (fun s => if s = "good" then some (create_jwt 5 "s" "HS256" 60 100)
      else none) "s" "HS256" 99999 (some "Bearer good") = .unauthorized "Token expired" ∧
    auth_middleware (fun s => if s = "good" then some (create_jwt 5 "s" "HS256" 60 100)
      else none) "s" "HS256" 200 (some "Bearer good") = .proceed (some 5) := by
  refine ⟨?_, ?_, ?_⟩
  · refine (c5_identity_resolution _ "s" "HS256" 200).2.1 "Basic abc" ?_
    intro s t hst
    have hl : splitWhitespace "Basic abc" = ["Basic", "abc"] := by decide
    rw [hl] at hst
    simp only [List.cons.injEq] at hst
    rw [← hst.1]
    decide
  · exact ((c5_identity_resolution _ "s" "HS256" 99999).2.2.2 (some "Bearer good") "good"
      (create_jwt 5 "s" "HS256" 60 100) (by decide) rfl).1 rfl
  · exact ((c5_identity_resolution _ "s" "HS256" 200).2.2.2 (some "Bearer good") "good"
      (create_jwt 5 "s" "HS256" 60 100) (by decide) rfl).2.2 ⟨5, 100, 3700⟩ rfl

/-- Claim C1: for update and delete on a listing id by an authenticated
caller (here after a validated update payload), existence is checked
before ownership: a missing listing yields 404 for every caller, an
existing listing with a different owner yields 403, and only a matching
owner reaches the mutation or deletion. -/
theorem c1_existence_before_ownership (db : List Advertisement) (user_id ad_id : Int)
    (payload : Payload) (data : List (String × String))
    (hv : validate_update_ad payload = .ok data) :
    (find_ad db ad_id = none →
      (update_advertisement db user_id ad_id payload).1 = .notFound ∧
      ((update_advertisement db user_id ad_id payload).1).status = 404 ∧
      (delete_advertisement db user_id ad_id).1 = .notFound ∧
      ((delete_advertisement db user_id ad_id).1).status = 404) ∧
    (∀ ad, find_ad db ad_id = some ad → ad.user_id ≠ user_id →
      (update_advertisement db user_id ad_id payload).1 = .forbidden ∧
      ((update_advertisement db user_id ad_id payload).1).status = 403 ∧
      (delete_advertisement db user_id ad_id).1 = .forbidden ∧
      ((delete_advertisement db user_id ad_id).1).status = 403) ∧
    (∀ ad, find_ad db ad_id = some ad → ad.user_id = user_id →
      (update_advertisement db user_id ad_id payload).1
        = .updated (apply_update ad data) ∧
      (delete_advertisement db user_id ad_id).1 = .deleted ad_id) := by
  refine ⟨?_, ?_, ?_⟩
  · intro hf
    have h1 : (update_advertisement db user_id ad_id payload).1 = .notFound := by
      simp [update_advertisement, hv, hf]
    have h2 : (delete_advertisement db user_id ad_id).1 = .notFound := by
      simp [delete_advertisement, hf]
    exact ⟨h1, by rw [h1]; rfl, h2, by rw [h2]; rfl⟩
  · intro ad hf ho
    have h1 : (update_advertisement db user_id ad_id payload).1 = .forbidden := by
      simp [update_advertisement, hv, hf, ho]
    have h2 : (delete_advertisement db user_id ad_id).1 = .forbidden := by
      simp [delete_advertisement, hf, ho]
    exact ⟨h1, by rw [h1]; rfl, h2, by rw [h2]; rfl⟩
  · intro ad hf ho
    constructor
    · simp [update_advertisement, hv, hf, ho]
    · simp [delete_advertisement, hf, ho]

/-- Witness for C1: with one listing of id 1 owned by user 9, an update of
id 2 is 404, an update of id 1 by user 8 is 403, and a delete of id 1 by
user 9 succeeds. -/
theorem c1_existence_before_ownership_witness :
    (update_advertisement [⟨1, "t", "d", 0, 9⟩] 8 2 [("title", .str "new")]).1
      = .notFound ∧
    (update_advertisement [⟨1, "t", "d", 0, 9⟩] 8 1 [("title", .str "new")]).1
      = .forbidden ∧
    (delete_advertisement [⟨1, "t", "d", 0, 9⟩] 9 1).1 = .deleted 1 :=
  ⟨((c1_existence_before_ownership [⟨1, "t", "d", 0, 9⟩] 8 2 [("title", .str "new")]
      [("title", "new")] rfl).1 rfl).1,
   ((c1_existence_before_ownership [⟨1, "t", "d", 0, 9⟩] 8 1 [("title", .str "new")]
      [("title", "new")] rfl).2.1 ⟨1, "t", "d", 0, 9⟩ rfl (by decide)).1,
   ((c1_existence_before_ownership [⟨1, "t", "d", 0, 9⟩] 9 1 [("title", .str "new")]
      [("title", "new")] rfl).2.2 ⟨1, "t", "d", 0, 9⟩ rfl rfl).2⟩

/-- Claim C2: a created listing's owner is the caller's resolved identity;
the create endpoint ignores any client-supplied owner field; and no update
path can change a listing's owner — the dynamic SET clause leaves
`user_id` untouched for every validated field set. -/
theorem c2_owner_from_identity_only :
    (∀ (db : List Advertisement) (next_id uid : Int) (payload : Payload) (now : Int)
        (ad : Advertisement) (db2 : List Advertisement),
      create_advertisement db next_id uid payload now = (.created ad, db2) →
        ad.user_id = uid) ∧
    (∀ (db : List Advertisement) (next_id uid : Int) (v : JsonVal) (payload : Payload)
        (now : Int),
      create_advertisement db next_id uid (("owner", v) :: payload) now
        = create_advertisement db next_id uid payload now) ∧
    (∀ (ad : Advertisement) (data : List (String × String)),
      (apply_update ad data).user_id = ad.user_id) := by
  refine ⟨?_, ?_, ?_⟩
  · intro db next_id uid payload now ad db2 h
    rw [create_advertisement] at h
    cases hv : validate_create_ad payload with
    | error e =>
      rw [hv] at h
      simp at h
    | ok td =>
      rw [hv] at h
      simp only [Prod.mk.injEq] at h
      obtain ⟨h1, _⟩ := h
      injection h1 with h3
      rw [← h3]
  · intro db next_id uid v payload now
    rfl
  · exact fun ad data => apply_update_keeps_user_id data ad

/-- Witness for C2: a concrete create stores owner 42, the same create
with a client-supplied owner field behaves identically, and a SET over
title/description keeps the row's owner. -/
theorem c2_owner_from_identity_only_witness :
    ((⟨1, "T", "D", 0, 42⟩ : Advertisement)).user_id = 42 ∧
    create_advertisement [] 1 42
        [("owner", .str "evil"), ("title", .str "T"), ("description", .str "D")] 0
      = create_advertisement [] 1 42 [("title", .str "T"), ("description", .str "D")] 0 ∧
    (apply_update ⟨1, "T", "D", 0, 42⟩ [("title", "X"), ("description", "Y")]).user_id
      = 42 :=
  ⟨c2_owner_from_identity_only.1 [] 1 42 [("title", .str "T"), ("description", .str "D")]
      0 ⟨1, "T", "D", 0, 42⟩ [⟨1, "T", "D", 0, 42⟩] (by decide),
   c2_owner_from_identity_only.2.1 [] 1 42 (.str "evil")
      [("title", .str "T"), ("description", .str "D")] 0,
   c2_owner_from_identity_only.2.2 ⟨1, "T", "D", 0, 42⟩ [("title", "X"), ("description", "Y")]⟩

/-- Claim C6: in the partial-update validator, keys outside the allow-list
are silently dropped; a payload with no allowed key fails with "No fields
to update"; an allowed key explicitly present with a blank string value
yields a field-specific error rather than a silent skip; and a payload
whose allowed fields are all explicit nulls fails with the distinct "No
valid fields to update". -/
theorem c6_partial_update_field_selection :
    (∀ (k : String) (v : JsonVal) (payload : Payload), k ∉ updAllowed →
      validate_update ((k, v) :: payload) = validate_update payload) ∧
    (∀ payload : Payload, (∀ kv ∈ payload, kv.1 ∉ updAllowed) →
      validate_update payload = .error [("_", "No fields to update")]) ∧
    (∀ (payload : Payload) (v : String),
      payload.lookup "title" = some (.str v) → pyStrip v = "" →
      ∃ errs, validate_update payload = .error errs ∧
        ("title", "Field cannot be empty") ∈ errs) ∧
    (∀ payload : Payload, (∃ kv ∈ payload, kv.1 ∈ updAllowed) →
      (∀ kv ∈ payload, kv.1 ∈ updAllowed → kv.2 = .null) →
      validate_update payload = .error [("_", "No valid fields to update")]) := by
  refine ⟨?_, ?_, ?_, ?_⟩
  · intro k v payload hk
    have hd : decide ((k, v).1 ∈ updAllowed) = false := decide_eq_false hk
    simp only [validate_update, List.filter_cons, hd, Bool.false_eq_true, if_false]
  · intro payload hall
    have hnil : payload.filter (fun kv => decide (kv.1 ∈ updAllowed)) = [] := by
      rw [List.filter_eq_nil_iff]
      intro a ha
      simpa using hall a ha
    simp only [validate_update, hnil, List.isEmpty_nil, if_true]
  · intro payload v hl htrim
    have hlk : (payload.filter (fun kv => decide (kv.1 ∈ updAllowed))).lookup "title"
        = some (.str v) :=
      (lookup_filter_key (fun s => decide (s ∈ updAllowed)) "title" (by decide)
        payload).trans hl
    have hne : (payload.filter (fun kv => decide (kv.1 ∈ updAllowed))).isEmpty = false := by
      cases hc : payload.filter (fun kv => decide (kv.1 ∈ updAllowed)) with
      | nil => rw [hc] at hlk; simp [List.lookup] at hlk
      | cons a tl => rfl
    have ht : updTitle (payload.filter (fun kv => decide (kv.1 ∈ updAllowed)))
        = ([("title", "Field cannot be empty")], []) := by
      simp [updTitle, hlk, htrim]
    refine ⟨("title", "Field cannot be empty")
        :: ((updDescription (payload.filter (fun kv => decide (kv.1 ∈ updAllowed)))).1
          ++ (updOwner (payload.filter (fun kv => decide (kv.1 ∈ updAllowed)))).1),
      ?_, List.mem_cons_self _ _⟩
    simp only [validate_update, hne, Bool.false_eq_true, if_false, ht,
      List.singleton_append, List.cons_append, List.nil_append, List.isEmpty_cons]
  · intro payload hex hnull
    obtain ⟨kv, hkvmem, hkvallowed⟩ := hex
    have hmem : kv ∈ payload.filter (fun kv => decide (kv.1 ∈ updAllowed)) :=
      List.mem_filter.mpr ⟨hkvmem, by simpa using hkvallowed⟩
    have hne : (payload.filter (fun kv => decide (kv.1 ∈ updAllowed))).isEmpty = false := by
      cases hc : payload.filter (fun kv => decide (kv.1 ∈ updAllowed)) with
      | nil => rw [hc] at hmem; cases hmem
      | cons a tl => rfl
    have hfield : ∀ k : String, k ∈ updAllowed →
        (payload.filter (fun kv => decide (kv.1 ∈ updAllowed))).lookup k = none ∨
        (payload.filter (fun kv => decide (kv.1 ∈ updAllowed))).lookup k
          = some .null := by
      intro k hkallow
      cases hc : (payload.filter (fun kv => decide (kv.1 ∈ updAllowed))).lookup k with
      | none => exact Or.inl rfl
      | some b =>
        right
        have hmem2 := mem_of_lookup_eq_some hc
        have hpay := (List.mem_filter.mp hmem2).1
        have hb : b = JsonVal.null := hnull (k, b) hpay hkallow
        rw [hb]
    have ht : updTitle (payload.filter (fun kv => decide (kv.1 ∈ updAllowed)))
        = ([], []) := by
      rcases hfield "title" (by decide) with hc | hc <;> simp [updTitle, hc]
    have hd : updDescription (payload.filter (fun kv => decide (kv.1 ∈ updAllowed)))
        = ([], []) := by
      rcases hfield "description" (by decide) with hc | hc <;> simp [updDescription, hc]
    have ho : updOwner (payload.filter (fun kv => decide (kv.1 ∈ updAllowed)))
        = ([], []) := by
      rcases hfield "owner" (by decide) with hc | hc <;> simp [updOwner, hc]
    simp only [validate_update, hne, Bool.false_eq_true, if_false, ht, hd, ho,
      List.nil_append, List.isEmpty_nil, if_true]

/-- Witness for C6: a payload of only disallowed keys fails with "No
fields to update", a blank explicit title yields the field error, and an
all-null payload yields "No valid fields to update". -/
theorem c6_partial_update_field_selection_witness :
    validate_update [("foo", .str "x")] = .error [("_", "No fields to update")] ∧
    (∃ errs, validate_update [("title", .str "  ")] = .error errs ∧
      ("title", "Field cannot be empty") ∈ errs) ∧
    validate_update [("title", .null), ("owner", .null)]
      = .error [("_", "No valid fields to update")] :=
  ⟨c6_partial_update_field_selection.2.1 [("foo", .str "x")] (by decide),
   c6_partial_update_field_selection.2.2.1 [("title", .str "  ")] "  " rfl rfl,
   c6_partial_update_field_selection.2.2.2 [("title", .null), ("owner", .null)]
     ⟨("title", .null), by decide⟩ (by decide)⟩

/-- A successful email check means the value was a string whose strip is
non-blank and well-shaped, returned trimmed and lower-cased. -/
theorem checkRegEmail_ok (v : Option JsonVal) (ev : String)
    (h : checkRegEmail v = .ok ev) :
    ∃ s, v = some (.str s) ∧ pyStrip s ≠ "" ∧ valid_email_shape (pyStrip s) = true ∧
      ev = pyLower (pyStrip s) := by
  cases v with
  | none => simp [checkRegEmail] at h
  | some jv =>
    cases jv with
    | null => simp [checkRegEmail] at h
    | other => simp [checkRegEmail] at h
    | str s =>
      by_cases h1 : pyStrip s = ""
      · simp [checkRegEmail, h1] at h
      · by_cases h2 : valid_email_shape (pyStrip s) = true
        · simp [checkRegEmail, h1, h2] at h
          exact ⟨s, rfl, h1, h2, h.symm⟩
        · simp [checkRegEmail, h1, h2] at h

/-- A successful password check means the value was a string of trimmed
length at least 6, returned as given. -/
theorem checkRegPassword_ok (v : Option JsonVal) (pv : String)
    (h : checkRegPassword v = .ok pv) :
    ∃ s, v = some (.str s) ∧ 6 ≤ (pyStrip s).length ∧ pv = s := by
  cases v with
  | none => simp [checkRegPassword] at h
  | some jv =>
    cases jv with
    | null => simp [checkRegPassword] at h
    | other => simp [checkRegPassword] at h
    | str s =>
      by_cases h1 : (pyStrip s).length < 6
      · simp [checkRegPassword, h1] at h
      · simp [checkRegPassword, h1] at h
        exact ⟨s, rfl, by omega, h.symm⟩

/-- Claim C9: registration validation accepts only a non-blank email of
the simple shape, normalized by trimming and lower-casing, with a password
of trimmed length at least 6, and accumulates the violations of both
fields into one field-to-message mapping. -/
theorem c9_register_validation :
    (∀ (payload : Payload) (d : RegisterData), validate_register payload = .ok d →
      ∃ es ps : String,
        payload.lookup "email" = some (.str es) ∧ pyStrip es ≠ "" ∧
        valid_email_shape (pyStrip es) = true ∧ d.email = pyLower (pyStrip es) ∧
        payload.lookup "password" = some (.str ps) ∧ 6 ≤ (pyStrip ps).length ∧
        d.password = ps) ∧
    (∀ es ps : String, pyStrip es = "" → (pyStrip ps).length < 6 →
      validate_register [("email", .str es), ("password", .str ps)]
        = .error [("email", "Field cannot be empty"),
            ("password", "Password must be at least 6 characters")]) := by
  constructor
  · intro payload d h
    unfold validate_register at h
    cases he : checkRegEmail (payload.lookup "email") with
    | error e1 =>
      rw [he] at h
      cases hp : checkRegPassword (payload.lookup "password") with
      | error e2 => rw [hp] at h; simp at h
      | ok pv => rw [hp] at h; simp at h
    | ok ev =>
      cases hp : checkRegPassword (payload.lookup "password") with
      | error e2 => rw [hp, he] at h; simp at h
      | ok pv =>
        rw [he, hp] at h
        simp only [Except.ok.injEq] at h
        obtain ⟨es, hl, hne, hshape, hev⟩ := checkRegEmail_ok _ _ he
        obtain ⟨ps, hlp, hlen, hpv⟩ := checkRegPassword_ok _ _ hp
        refine ⟨es, ps, hl, hne, hshape, ?_, hlp, hlen, ?_⟩
        · rw [← h, ← hev]
        · rw [← h, ← hpv]
  · intro es ps h1 h2
    have hle : List.lookup "email"
        [("email", JsonVal.str es), ("password", JsonVal.str ps)]
        = some (.str es) := rfl
    have hlp : List.lookup "password"
        [("email", JsonVal.str es), ("password", JsonVal.str ps)]
        = some (.str ps) := rfl
    unfold validate_register
    rw [hle, hlp]
    simp [checkRegEmail, checkRegPassword, h1, h2]

/-- Witness for C9: a blank email together with a five-character password
is rejected with both field errors at once. -/
theorem c9_register_validation_witness :
    validate_register [("email", .str " "), ("password", .str "12345")]
      = .error [("email", "Field cannot be empty"),
          ("password", "Password must be at least 6 characters")] :=
  c9_register_validation.2 " " "12345" rfl (by decide)

end AdService
